import Mathlib

/-!
Shallow embedding of the data-collection workflow of the
quant-composer-analysis repository (src/example_usage.ipynb), together
with proofs of the behavioural properties of its batch-fetch,
persistence and aggregation steps.

External helpers imported by the notebook from `composer_api`,
`data_processing`, `file_utils` and `quant_analysis` (`fetch_symphony`,
`fetch_backtest_raw`, `get_symphonies`, `read_json`,
`get_backtest_and_symphony_name`, dataframe conversions, `get_csv_name`)
are modelled as parameters (oracles), so all theorems about the loops in
the notebook hold for every behaviour of those helpers.  Python dicts
are modelled as association lists with in-place overwrite (`dset`);
effects (rate-limit sleeps, network calls, file writes) are modelled as
an explicit event trace.
-/

set_option autoImplicit false

namespace Composer

/-- Result of one HTTP call, as returned by `fetch_symphony` /
`fetch_backtest_raw`: the `ok` flag, the status code, and the decoded
JSON payload. -/
structure FetchResult (α : Type) where
  ok : Bool
  statusCode : Nat
  data : α
deriving DecidableEq, Repr

/-- Observable effects of the batch loops: the rate-limit pause
(`time.sleep(1)`, tagged with the loop index at which it fires), a
network call for a symphony id, and a file write (`write_json`) of a
payload to a path. -/
inductive Ev (α : Type) where
  | sleep : Nat → Ev α
  | fetch : String → Ev α
  | write : String → α → Ev α
deriving DecidableEq, Repr

/-- Indices at which the rate-limit pause fired, in trace order. -/
def sleepIndices {α : Type} (tr : List (Ev α)) : List Nat :=
  tr.filterMap fun e =>
    match e with
    | Ev.sleep i => some i
    | _ => none

/-- The (path, payload) pairs of all file writes in a trace, in order. -/
def writeEvents {α : Type} (tr : List (Ev α)) : List (String × α) :=
  tr.filterMap fun e =>
    match e with
    | Ev.write p a => some (p, a)
    | _ => none

/-- The symphony ids of all network calls in a trace, in order. -/
def fetchedSids {α : Type} (tr : List (Ev α)) : List String :=
  tr.filterMap fun e =>
    match e with
    | Ev.fetch s => some s
    | _ => none

/-! ### Python dicts as association lists

`dset d k v` is `d[k] = v`: it overwrites the value at the first
occurrence of `k` (keeping its position, as CPython preserves insertion
order) and appends `(k, v)` when `k` is absent. -/

/-- Python dict assignment `d[k] = v` on an association list. -/
def dset {V : Type} : List (String × V) → String → V → List (String × V)
  | [], k, v => [(k, v)]
  | (k₀, v₀) :: rest, k, v =>
      if k₀ = k then (k, v) :: rest else (k₀, v₀) :: dset rest k v

/-- Python dict lookup `d.get(k)`. -/
def dget? {V : Type} : List (String × V) → String → Option V
  | [], _ => none
  | (k₀, v₀) :: rest, k => if k₀ = k then some v₀ else dget? rest k

/-- The keys of a dict, in insertion order. -/
def dkeys {V : Type} (d : List (String × V)) : List String :=
  d.map Prod.fst

/-- Effect of one assignment on the key list. -/
def kins (ks : List String) (k : String) : List String :=
  if k ∈ ks then ks else ks ++ [k]

/-- Python `d1.update(d2)`: assign every entry of `d2` into `d1`, in
order. -/
def dupdate {V : Type} (d1 d2 : List (String × V)) : List (String × V) :=
  d2.foldl (fun acc p => dset acc p.1 p.2) d1

theorem dget?_dset_self {V : Type} (d : List (String × V)) (k : String) (v : V) :
    dget? (dset d k v) k = some v := by
  induction d with
  | nil => simp [dset, dget?]
  | cons hd tl ih =>
      obtain ⟨k₀, v₀⟩ := hd
      by_cases h : k₀ = k
      · simp [dset, dget?, h]
      · simp [dset, dget?, h, ih]

theorem dkeys_nil {V : Type} : dkeys ([] : List (String × V)) = [] := rfl

theorem dkeys_cons {V : Type} (k₀ : String) (v₀ : V) (tl : List (String × V)) :
    dkeys ((k₀, v₀) :: tl) = k₀ :: dkeys tl := rfl

theorem dget?_dset_ne {V : Type} (d : List (String × V)) (k k' : String) (v : V)
    (hne : k' ≠ k) : dget? (dset d k v) k' = dget? d k' := by
  have hne' : k ≠ k' := Ne.symm hne
  induction d with
  | nil => simp [dset, dget?, hne']
  | cons hd tl ih =>
      obtain ⟨k₀, v₀⟩ := hd
      by_cases h : k₀ = k
      · subst h
        simp [dset, dget?, hne']
      · by_cases h' : k₀ = k'
        · subst h'
          simp [dset, dget?, h]
        · simp [dset, dget?, h, h', ih]

theorem dkeys_dset {V : Type} (d : List (String × V)) (k : String) (v : V) :
    dkeys (dset d k v) = kins (dkeys d) k := by
  induction d with
  | nil => simp [dset, dkeys, kins]
  | cons hd tl ih =>
      obtain ⟨k₀, v₀⟩ := hd
      by_cases h : k₀ = k
      · subst h
        simp [dset, dkeys, kins]
      · have hds : dset ((k₀, v₀) :: tl) k v = (k₀, v₀) :: dset tl k v := by
          simp [dset, h]
        have hml : (k ∈ k₀ :: dkeys tl) ↔ k ∈ dkeys tl := by
          simp [Ne.symm h]
        rw [hds, dkeys_cons, dkeys_cons, ih]
        by_cases hmem : k ∈ dkeys tl
        · rw [kins, if_pos hmem, kins, if_pos (hml.mpr hmem)]
        · rw [kins, if_neg hmem, kins, if_neg (fun hc => hmem (hml.mp hc))]
          simp

theorem dget?_isSome_iff_mem_dkeys {V : Type} (d : List (String × V)) (k : String) :
    (dget? d k).isSome ↔ k ∈ dkeys d := by
  induction d with
  | nil => simp [dget?, dkeys]
  | cons hd tl ih =>
      obtain ⟨k₀, v₀⟩ := hd
      by_cases h : k₀ = k
      · simp [dget?, dkeys, h]
      · have : ¬ k = k₀ := fun hh => h hh.symm
        simp [dget?, dkeys, h, this, ih]

theorem dget?_dupdate {V : Type} (d1 d2 : List (String × V))
    (hnd : (dkeys d2).Nodup) (k : String) :
    dget? (dupdate d1 d2) k = (dget? d2 k).orElse fun _ => dget? d1 k := by
  induction d2 generalizing d1 with
  | nil => simp [dupdate, dget?]
  | cons hd tl ih =>
      obtain ⟨k₂, v₂⟩ := hd
      rw [dkeys_cons] at hnd
      obtain ⟨hnotmem, hnd'⟩ := List.nodup_cons.mp hnd
      have step : dupdate d1 ((k₂, v₂) :: tl) = dupdate (dset d1 k₂ v₂) tl := by
        simp [dupdate]
      rw [step, ih (dset d1 k₂ v₂) hnd']
      by_cases h : k₂ = k
      · subst h
        have htl : dget? tl k₂ = none := by
          cases hcase : dget? tl k₂ with
          | none => rfl
          | some v =>
              exact absurd ((dget?_isSome_iff_mem_dkeys tl k₂).mp (by simp [hcase])) hnotmem
        rw [htl, dget?_dset_self]
        simp [dget?]
      · have hke : ¬ k = k₂ := fun hh => h hh.symm
        rw [dget?_dset_ne d1 k₂ k v₂ hke]
        simp [dget?, h]

/-! ### Batch fetchers

`batch_fetch_symphonies` and `batch_fetch_backtests` from
src/example_usage.ipynb.  Each is a sequential loop over its input; the
loop body sleeps when `idx % 20 == 0`, performs one network call, (for
backtests) writes the raw response to `bin/BT-{end_date}/{sid}.json`,
and then appends to the success or failure list according to the `ok`
flag.  The network call is an oracle parameter; the trace records the
effects in program order. -/

/-- One row of the symphonies dataframe, as consumed by
`batch_fetch_backtests` (the symphony_sid column is the only field
the loop reads). -/
structure BtRow where
  symphony_sid : String
deriving DecidableEq, Repr

/-- The per-identifier path `bin/BT-{end_date}/{sid}.json` used by
`batch_fetch_backtests` and by `main_data_collection_workflow`. -/
def btFilename (end_date sid : String) : String :=
  "bin/BT-" ++ end_date ++ "/" ++ sid ++ ".json"

/-- The loop of `batch_fetch_symphonies`, carrying the current index
`idx`; returns (trace of effects, response_list, failure_list). -/
def batchFetchSymphoniesAux {α : Type} (fetch_symphony : String → FetchResult α) :
    Nat → List String → List (Ev α) × List α × List (Nat × String × Nat)
  | _, [] => ([], [], [])
  | idx, sid :: rest =>
      let t := batchFetchSymphoniesAux fetch_symphony (idx + 1) rest
      let res := fetch_symphony sid
      ((if idx % 20 = 0 then [Ev.sleep idx] else []) ++ Ev.fetch sid :: t.1,
       if res.ok then res.data :: t.2.1 else t.2.1,
       if res.ok then t.2.2 else (idx, sid, res.statusCode) :: t.2.2)

/-- Embedding of `batch_fetch_symphonies(symphony_sid_list)`: fetch every symphony
with rate limiting, collecting successes and failures. -/
def batch_fetch_symphonies {α : Type} (fetch_symphony : String → FetchResult α)
    (symphony_sid_list : List String) :
    List (Ev α) × List α × List (Nat × String × Nat) :=
  batchFetchSymphoniesAux fetch_symphony 0 symphony_sid_list

/-- The loop of `batch_fetch_backtests`, carrying the current index.
Each iteration sleeps when `idx % 20 == 0`, fetches, unconditionally
writes the raw payload to the per-identifier file, and then classifies
the row by the `ok` flag. -/
def batchFetchBacktestsAux {α : Type}
    (fetch_backtest_raw : String → String → String → FetchResult α)
    (start_date end_date : String) :
    Nat → List BtRow → List (Ev α) × List α × List (Nat × String × Nat)
  | _, [] => ([], [], [])
  | idx, row :: rest =>
      let t := batchFetchBacktestsAux fetch_backtest_raw start_date end_date (idx + 1) rest
      let sid := row.symphony_sid
      let res := fetch_backtest_raw sid start_date end_date
      ((if idx % 20 = 0 then [Ev.sleep idx] else []) ++
         Ev.fetch sid :: Ev.write (btFilename end_date sid) res.data :: t.1,
       if res.ok then res.data :: t.2.1 else t.2.1,
       if res.ok then t.2.2 else (idx, sid, res.statusCode) :: t.2.2)

/-- Embedding of `batch_fetch_backtests(df, start_date, end_date)`: fetch every
backtest with rate limiting, writing each raw response to
`bin/BT-{end_date}/{sid}.json` before classifying it. -/
def batch_fetch_backtests {α : Type}
    (fetch_backtest_raw : String → String → String → FetchResult α)
    (df : List BtRow) (start_date end_date : String) :
    List (Ev α) × List α × List (Nat × String × Nat) :=
  batchFetchBacktestsAux fetch_backtest_raw start_date end_date 0 df

/-! ### Trace characterisations of the two batch loops -/

theorem sleepIndices_symAux {α : Type} (fetch_symphony : String → FetchResult α)
    (i : Nat) (sids : List String) :
    sleepIndices (batchFetchSymphoniesAux fetch_symphony i sids).1
      = (List.range' i sids.length).filter (fun j => j % 20 == 0) := by
  induction sids generalizing i with
  | nil => simp [batchFetchSymphoniesAux, sleepIndices]
  | cons sid rest ih =>
      rw [List.length_cons, List.range'_succ]
      by_cases h : i % 20 = 0
      · simp [batchFetchSymphoniesAux, sleepIndices, List.filterMap_append, h,
          List.filter_cons] at ih ⊢
        exact ih (i + 1)
      · simp [batchFetchSymphoniesAux, sleepIndices, List.filterMap_append, h,
          List.filter_cons] at ih ⊢
        exact ih (i + 1)

theorem sleepIndices_btAux {α : Type}
    (fetch_backtest_raw : String → String → String → FetchResult α)
    (start_date end_date : String) (i : Nat) (df : List BtRow) :
    sleepIndices (batchFetchBacktestsAux fetch_backtest_raw start_date end_date i df).1
      = (List.range' i df.length).filter (fun j => j % 20 == 0) := by
  induction df generalizing i with
  | nil => simp [batchFetchBacktestsAux, sleepIndices]
  | cons row rest ih =>
      rw [List.length_cons, List.range'_succ]
      by_cases h : i % 20 = 0
      · simp [batchFetchBacktestsAux, sleepIndices, List.filterMap_append, h,
          List.filter_cons] at ih ⊢
        exact ih (i + 1)
      · simp [batchFetchBacktestsAux, sleepIndices, List.filterMap_append, h,
          List.filter_cons] at ih ⊢
        exact ih (i + 1)

theorem writeEvents_symAux {α : Type} (fetch_symphony : String → FetchResult α)
    (i : Nat) (sids : List String) :
    writeEvents (batchFetchSymphoniesAux fetch_symphony i sids).1 = [] := by
  induction sids generalizing i with
  | nil => simp [batchFetchSymphoniesAux, writeEvents]
  | cons sid rest ih =>
      by_cases h : i % 20 = 0 <;>
        simpa [batchFetchSymphoniesAux, writeEvents, List.filterMap_append, h]
          using ih (i + 1)

theorem writeEvents_btAux {α : Type}
    (fetch_backtest_raw : String → String → String → FetchResult α)
    (start_date end_date : String) (i : Nat) (df : List BtRow) :
    writeEvents (batchFetchBacktestsAux fetch_backtest_raw start_date end_date i df).1
      = df.map (fun row => (btFilename end_date row.symphony_sid,
          (fetch_backtest_raw row.symphony_sid start_date end_date).data)) := by
  induction df generalizing i with
  | nil => simp [batchFetchBacktestsAux, writeEvents]
  | cons row rest ih =>
      by_cases h : i % 20 = 0 <;>
        simpa [batchFetchBacktestsAux, writeEvents, List.filterMap_append, h]
          using ih (i + 1)

theorem fetchedSids_symAux {α : Type} (fetch_symphony : String → FetchResult α)
    (i : Nat) (sids : List String) :
    fetchedSids (batchFetchSymphoniesAux fetch_symphony i sids).1 = sids := by
  induction sids generalizing i with
  | nil => simp [batchFetchSymphoniesAux, fetchedSids]
  | cons sid rest ih =>
      by_cases h : i % 20 = 0 <;>
        simpa [batchFetchSymphoniesAux, fetchedSids, List.filterMap_append, h]
          using ih (i + 1)

theorem succ_symAux {α : Type} (fetch_symphony : String → FetchResult α)
    (i : Nat) (sids : List String) :
    (batchFetchSymphoniesAux fetch_symphony i sids).2.1
      = (sids.filter (fun s => (fetch_symphony s).ok)).map
          (fun s => (fetch_symphony s).data) := by
  induction sids generalizing i with
  | nil => simp [batchFetchSymphoniesAux]
  | cons sid rest ih =>
      by_cases hok : (fetch_symphony sid).ok <;>
        simp [batchFetchSymphoniesAux, List.filter_cons, hok, ih (i + 1)]

theorem fail_symAux {α : Type} (fetch_symphony : String → FetchResult α)
    (i : Nat) (sids : List String) :
    (batchFetchSymphoniesAux fetch_symphony i sids).2.2
      = ((List.enumFrom i sids).filter (fun p => !(fetch_symphony p.2).ok)).map
          (fun p => (p.1, p.2, (fetch_symphony p.2).statusCode)) := by
  induction sids generalizing i with
  | nil => simp [batchFetchSymphoniesAux]
  | cons sid rest ih =>
      by_cases hok : (fetch_symphony sid).ok <;>
        simp [batchFetchSymphoniesAux, List.enumFrom, List.filter_cons, hok, ih (i + 1)]

theorem fail_btAux {α : Type}
    (fetch_backtest_raw : String → String → String → FetchResult α)
    (start_date end_date : String) (i : Nat) (df : List BtRow) :
    (batchFetchBacktestsAux fetch_backtest_raw start_date end_date i df).2.2
      = ((List.enumFrom i df).filter
            (fun p => !(fetch_backtest_raw p.2.symphony_sid start_date end_date).ok)).map
          (fun p => (p.1, p.2.symphony_sid,
            (fetch_backtest_raw p.2.symphony_sid start_date end_date).statusCode)) := by
  induction df generalizing i with
  | nil => simp [batchFetchBacktestsAux]
  | cons row rest ih =>
      by_cases hok : (fetch_backtest_raw row.symphony_sid start_date end_date).ok <;>
        simp [batchFetchBacktestsAux, List.enumFrom, List.filter_cons, hok, ih (i + 1)]

theorem len_symAux {α : Type} (fetch_symphony : String → FetchResult α)
    (i : Nat) (sids : List String) :
    (batchFetchSymphoniesAux fetch_symphony i sids).2.1.length
      + (batchFetchSymphoniesAux fetch_symphony i sids).2.2.length
      = sids.length := by
  induction sids generalizing i with
  | nil => simp [batchFetchSymphoniesAux]
  | cons sid rest ih =>
      have hrec := ih (i + 1)
      by_cases hok : (fetch_symphony sid).ok <;>
        simp [batchFetchSymphoniesAux, hok] <;> omega

theorem mem_enumFrom_of_get? {β : Type} (n i : Nat) (l : List β) (x : β)
    (h : l.get? i = some x) : (n + i, x) ∈ List.enumFrom n l := by
  induction l generalizing n i with
  | nil => simp [List.get?] at h
  | cons hd tl ih =>
      cases i with
      | zero =>
          have hx : hd = x := Option.some.inj h
          subst hx
          simp [List.enumFrom]
      | succ j =>
          have h' : tl.get? j = some x := h
          have hmem := ih (n + 1) j h'
          have harith : n + 1 + j = n + (j + 1) := by omega
          rw [harith] at hmem
          exact List.mem_cons_of_mem _ hmem

/-! ### Extractor and backtest result processing -/

/-- Embedding of `process_discord_exports(dirpath)`: fold `symphonies_dict.update(
get_symphonies(target_file))` over the files of the directory, starting
from the empty dict.  The directory listing and the per-file extractor
`get_symphonies` (imported from `data_processing`) are parameters. -/
def process_discord_exports {J : Type} (get_symphonies : String → List (String × J))
    (jsonfiles : List String) : List (String × J) :=
  jsonfiles.foldl (fun acc target_file => dupdate acc (get_symphonies target_file)) []

/-- The 5-tuple returned by `get_backtest_and_symphony_name(jsond)`:
`(df_allocations, df_return, stats, symphony_name, id)`. -/
structure BtParse (A R S : Type) where
  df_allocations : A
  df_return : R
  stats : S
  symphony_name : String
  id : String
deriving DecidableEq, Repr

/-- The body of one iteration of `process_backtest_results`: on a
successful read-and-extract, assign into all four dicts under the
payload identifier; on any exception (`none`), leave the dicts
unchanged (the bare `except:` swallows the error and continues). -/
def processStep {A R S : Type}
    (acc : List (String × A) × List (String × R) × List (String × S) × List (String × String))
    (parsed : Option (BtParse A R S)) :
    List (String × A) × List (String × R) × List (String × S) × List (String × String) :=
  match parsed with
  | none => acc
  | some p =>
      (dset acc.1 p.id p.df_allocations,
       dset acc.2.1 p.id p.df_return,
       dset acc.2.2.1 p.id p.stats,
       dset acc.2.2.2 p.id p.symphony_name)

/-- Embedding of `process_backtest_results(jsonfiles)`: for each file, `read_json`
then `get_backtest_and_symphony_name` (both fallible, modelled as
`Option`-returning oracles), storing the four extracted structures under
the embedded identifier; failures are skipped.  Returns
`(dict_allocation, dict_return, dict_stats, dict_name)`. -/
def process_backtest_results {J A R S : Type}
    (read_json : String → Option J)
    (get_backtest_and_symphony_name : J → Option (BtParse A R S))
    (jsonfiles : List String) :
    List (String × A) × List (String × R) × List (String × S) × List (String × String) :=
  jsonfiles.foldl
    (fun acc jsonfile =>
      processStep acc ((read_json jsonfile).bind get_backtest_and_symphony_name))
    ([], [], [], [])

/-- The same fold as `process_backtest_results`, but driven directly by
the list of per-file parse results: used to show the output depends only
on the payloads, never on the file names. -/
def processFromParses {A R S : Type} (parses : List (Option (BtParse A R S))) :
    List (String × A) × List (String × R) × List (String × S) × List (String × String) :=
  parses.foldl processStep ([], [], [], [])

/-- Modelled from the spec: `merge_dicts` is imported from
`data_processing`, whose source is not under src/.  Section 4.5 and the
testable properties describe it as the union of two mappings in which
"quant stats keys win on collision", i.e. every entry of the second dict
is assigned over the first. -/
def merge_dicts {V : Type} (d1 d2 : List (String × V)) : List (String × V) :=
  dupdate d1 d2

/-! ### Lemmas about the backtest result processor -/

theorem process_eq_processFromParses {J A R S : Type}
    (read_json : String → Option J)
    (get_backtest_and_symphony_name : J → Option (BtParse A R S))
    (jsonfiles : List String) :
    process_backtest_results read_json get_backtest_and_symphony_name jsonfiles
      = processFromParses
          (jsonfiles.map fun f => (read_json f).bind get_backtest_and_symphony_name) := by
  rw [process_backtest_results, processFromParses, List.foldl_map]

theorem processFromParses_append {A R S : Type}
    (l : List (Option (BtParse A R S))) (x : Option (BtParse A R S)) :
    processFromParses (l ++ [x]) = processStep (processFromParses l) x := by
  simp [processFromParses, List.foldl_append]

theorem processFromParses_skip_none {A R S : Type}
    (a b : List (Option (BtParse A R S))) :
    processFromParses (a ++ none :: b) = processFromParses (a ++ b) := by
  simp [processFromParses, List.foldl_append, List.foldl_cons]
  rfl

/-- The four dicts receive identical key operations, so key equality is
an invariant of the fold. -/
theorem processFromParses_keys_eq_aux {A R S : Type}
    (parses : List (Option (BtParse A R S)))
    (acc : List (String × A) × List (String × R) × List (String × S) × List (String × String))
    (h1 : dkeys acc.1 = dkeys acc.2.1)
    (h2 : dkeys acc.1 = dkeys acc.2.2.1)
    (h3 : dkeys acc.1 = dkeys acc.2.2.2) :
    dkeys (parses.foldl processStep acc).1 = dkeys (parses.foldl processStep acc).2.1
      ∧ dkeys (parses.foldl processStep acc).1 = dkeys (parses.foldl processStep acc).2.2.1
      ∧ dkeys (parses.foldl processStep acc).1 = dkeys (parses.foldl processStep acc).2.2.2 := by
  induction parses generalizing acc with
  | nil => exact ⟨h1, h2, h3⟩
  | cons x rest ih =>
      rw [List.foldl_cons]
      cases x with
      | none => exact ih acc h1 h2 h3
      | some p =>
          refine ih _ ?_ ?_ ?_
          · show dkeys (dset acc.1 p.id p.df_allocations)
              = dkeys (dset acc.2.1 p.id p.df_return)
            rw [dkeys_dset, dkeys_dset, h1]
          · show dkeys (dset acc.1 p.id p.df_allocations)
              = dkeys (dset acc.2.2.1 p.id p.stats)
            rw [dkeys_dset, dkeys_dset, h2]
          · show dkeys (dset acc.1 p.id p.df_allocations)
              = dkeys (dset acc.2.2.2 p.id p.symphony_name)
            rw [dkeys_dset, dkeys_dset, h3]

/-- Keys of the allocation dict after an all-successful run with
pairwise-distinct payload identifiers. -/
theorem processFromParses_good_keys {A R S : Type} (ps : List (BtParse A R S))
    (hnd : (ps.map BtParse.id).Nodup) :
    dkeys (processFromParses (ps.map some)).1 = ps.map BtParse.id := by
  induction ps using List.reverseRecOn with
  | nil => simp [processFromParses, dkeys]
  | append_singleton xs p₀ ih =>
      simp only [List.map_append, List.map_cons, List.map_nil] at hnd ⊢
      obtain ⟨hxs, -, hdisj⟩ := List.nodup_append.mp hnd
      have hnotmem : p₀.id ∉ xs.map BtParse.id := by
        intro hmem
        exact hdisj hmem (by simp)
      rw [processFromParses_append, processStep, dkeys_dset, ih hxs, kins,
        if_neg hnotmem]

/-- Lookups after an all-successful run with pairwise-distinct payload
identifiers: every parse is stored intact in all four dicts. -/
theorem processFromParses_good_lookups {A R S : Type} (ps : List (BtParse A R S))
    (hnd : (ps.map BtParse.id).Nodup) (p : BtParse A R S) (hp : p ∈ ps) :
    dget? (processFromParses (ps.map some)).1 p.id = some p.df_allocations
      ∧ dget? (processFromParses (ps.map some)).2.1 p.id = some p.df_return
      ∧ dget? (processFromParses (ps.map some)).2.2.1 p.id = some p.stats
      ∧ dget? (processFromParses (ps.map some)).2.2.2 p.id = some p.symphony_name := by
  induction ps using List.reverseRecOn with
  | nil => simp at hp
  | append_singleton xs p₀ ih =>
      simp only [List.map_append, List.map_cons, List.map_nil] at hnd
      obtain ⟨hxs, -, hdisj⟩ := List.nodup_append.mp hnd
      simp only [List.map_append, List.map_cons, List.map_nil]
      rw [processFromParses_append, processStep]
      rcases List.mem_append.mp hp with hmem | hlast
      · have hne : p.id ≠ p₀.id := by
          intro he
          exact hdisj (he ▸ List.mem_map_of_mem BtParse.id hmem) (by simp)
        obtain ⟨g1, g2, g3, g4⟩ := ih hxs hmem
        exact ⟨by rw [dget?_dset_ne _ _ _ _ hne]; exact g1,
               by rw [dget?_dset_ne _ _ _ _ hne]; exact g2,
               by rw [dget?_dset_ne _ _ _ _ hne]; exact g3,
               by rw [dget?_dset_ne _ _ _ _ hne]; exact g4⟩
      · have hp₀ : p = p₀ := by simpa using hlast
        subst hp₀
        exact ⟨dget?_dset_self _ _ _, dget?_dset_self _ _ _,
               dget?_dset_self _ _ _, dget?_dset_self _ _ _⟩

/-! ### The main workflow

`main_data_collection_workflow()` from src/example_usage.ipynb, with
every imported helper given as an oracle field of `Env`.  The workflow
is modelled by the ordered list of its file writes (`to_csv` calls and
the `write_json` calls inside `batch_fetch_backtests`) together with
the two dataframes it returns. -/

/-- A file content written by the workflow: a raw JSON payload
(`write_json`) or a serialized dataframe (`to_csv`). -/
inductive FileData (J D : Type) where
  | json : J → FileData J D
  | csv : D → FileData J D
deriving DecidableEq, Repr

/-- The helpers `main_data_collection_workflow` imports from
`composer_api`, `data_processing`, `file_utils` and `quant_analysis`,
plus the run's dates and the listing of the Discord export directory.
`sidValues` reads the symphony_sid column of a dataframe; `oosDates`
reads the symphony_sid and backtest_start_date columns of the response
dataframe. -/
structure Env (J D : Type) where
  start_date : String
  end_date : String
  exportFiles : List String
  get_symphonies : String → List (String × J)
  symphonies_to_df : List (String × J) → D
  sidValues : D → List String
  fetch_symphony : String → FetchResult J
  response_to_dataframe : List J → D
  fetch_backtest_raw : String → String → String → FetchResult J
  read_json : String → Option J
  get_backtest_and_symphony_name : J → Option (BtParse J J J)
  calculate_quantstats_metrics : List (String × J) → List (String × J)
  oosDates : D → List (String × String)
  calculate_oos_stats : List (String × J) → List (String × String) → List (String × J)
  convert_sid_dict_to_df : List (String × String) → List (String × J) → D
  get_csv_name : String → String

/-- The dataframe `df = symphonies_to_df(process_discord_exports(dirpath))`. -/
def wfDf {J D : Type} (env : Env J D) : D :=
  env.symphonies_to_df (process_discord_exports env.get_symphonies env.exportFiles)

/-- The symphony_sid column of `df`, as fetched by the workflow. -/
def wfSids {J D : Type} (env : Env J D) : List String :=
  env.sidValues (wfDf env)

/-- Effect trace of the `batch_fetch_symphonies` call. -/
def wfSymTrace {J D : Type} (env : Env J D) : List (Ev J) :=
  (batch_fetch_symphonies env.fetch_symphony (wfSids env)).1

/-- The dataframe `df_response = response_to_dataframe(response_list)`. -/
def wfDfResponse {J D : Type} (env : Env J D) : D :=
  env.response_to_dataframe (batch_fetch_symphonies env.fetch_symphony (wfSids env)).2.1

/-- The rows iterated by `batch_fetch_backtests(df, ...)`: same ids, in
the same order, as the symphony_sid column read by `wfSids`. -/
def wfRows {J D : Type} (env : Env J D) : List BtRow :=
  (wfSids env).map BtRow.mk

/-- Effect trace of the `batch_fetch_backtests` call. -/
def wfBtTrace {J D : Type} (env : Env J D) : List (Ev J) :=
  (batch_fetch_backtests env.fetch_backtest_raw (wfRows env) env.start_date env.end_date).1

/-- The list of per-identifier JSON paths built by the workflow for
`process_backtest_results`, one `btFilename` per symphony id. -/
def wfJsonfiles {J D : Type} (env : Env J D) : List String :=
  (wfSids env).map (fun sid => btFilename env.end_date sid)

/-- The `(dict_allocation, dict_return, dict_stats, dict_name)` of the
`process_backtest_results` call. -/
def wfProcessed {J D : Type} (env : Env J D) :
    List (String × J) × List (String × J) × List (String × J) × List (String × String) :=
  process_backtest_results env.read_json env.get_backtest_and_symphony_name (wfJsonfiles env)

/-- The dataframe `df_backtest_stats = convert_sid_dict_to_df(dict_name,
merge_dicts(dict_stats, dict_quant_stats))`. -/
def wfDfBacktestStats {J D : Type} (env : Env J D) : D :=
  env.convert_sid_dict_to_df (wfProcessed env).2.2.2
    (merge_dicts (wfProcessed env).2.2.1
      (env.calculate_quantstats_metrics (wfProcessed env).2.1))

/-- The dataframe `df_oos_stats = convert_sid_dict_to_df(dict_name,
dict_quant_oos_stats)`. -/
def wfDfOosStats {J D : Type} (env : Env J D) : D :=
  env.convert_sid_dict_to_df (wfProcessed env).2.2.2
    (env.calculate_oos_stats (wfProcessed env).2.1 (env.oosDates (wfDfResponse env)))

/-- All file writes performed by one run of the workflow, in program
order: the SYMPHONIES csv, any writes of the symphony fetch loop, the
OOS csv of `df_response`, the per-identifier JSON writes of the
backtest fetch loop, the BACKTEST csv, and finally the OOS csv of
`df_oos_stats`. -/
def wfWrites {J D : Type} (env : Env J D) : List (String × FileData J D) :=
  (env.get_csv_name "SYMPHONIES", FileData.csv (wfDf env))
    :: (writeEvents (wfSymTrace env)).map (fun w => (w.1, FileData.json w.2))
    ++ (env.get_csv_name "OOS", FileData.csv (wfDfResponse env))
    :: (writeEvents (wfBtTrace env)).map (fun w => (w.1, FileData.json w.2))
    ++ [(env.get_csv_name "BACKTEST", FileData.csv (wfDfBacktestStats env)),
        (env.get_csv_name "OOS", FileData.csv (wfDfOosStats env))]

/-- Embedding of `main_data_collection_workflow()`: the ordered write trace together
with the returned `(df_backtest_stats, df_oos_stats)`. -/
def main_data_collection_workflow {J D : Type} (env : Env J D) :
    List (String × FileData J D) × D × D :=
  (wfWrites env, wfDfBacktestStats env, wfDfOosStats env)

/-- Content of path `p` after a sequence of writes: the last write to
`p` wins. -/
def lastWrite {J D : Type} (writes : List (String × FileData J D)) (p : String) :
    Option (FileData J D) :=
  ((writes.filter (fun w => w.1 == p)).map (fun w => w.2)).getLast?

/-! ### Claim theorems -/

/-- Claim C1: for every list of identifiers of length N,
`batch_fetch_symphonies` performs exactly one fetch call per element
(the fetched ids are exactly the input list, in order, hence N calls)
and returns a success list and a failure list whose lengths sum to N;
the success list holds the payloads of exactly the ids whose fetch has
`ok = true`, and the failure list holds an `(index, id, status)` triple
for exactly the ids whose fetch has `ok = false`. -/
theorem claim_C1_batch_fetch_symphonies_counts {α : Type}
    (fetch_symphony : String → FetchResult α) (symphony_sid_list : List String) :
    fetchedSids (batch_fetch_symphonies fetch_symphony symphony_sid_list).1
        = symphony_sid_list
      ∧ (batch_fetch_symphonies fetch_symphony symphony_sid_list).2.1.length
          + (batch_fetch_symphonies fetch_symphony symphony_sid_list).2.2.length
        = symphony_sid_list.length
      ∧ (batch_fetch_symphonies fetch_symphony symphony_sid_list).2.1
        = (symphony_sid_list.filter (fun s => (fetch_symphony s).ok)).map
            (fun s => (fetch_symphony s).data)
      ∧ (batch_fetch_symphonies fetch_symphony symphony_sid_list).2.2
        = (symphony_sid_list.enum.filter (fun p => !(fetch_symphony p.2).ok)).map
            (fun p => (p.1, p.2, (fetch_symphony p.2).statusCode)) :=
  ⟨fetchedSids_symAux fetch_symphony 0 symphony_sid_list,
   len_symAux fetch_symphony 0 symphony_sid_list,
   succ_symAux fetch_symphony 0 symphony_sid_list,
   fail_symAux fetch_symphony 0 symphony_sid_list⟩

/-- Claim C2: in both batch fetchers the rate-limit pause fires exactly
once before the call at every 0-indexed position divisible by 20
(positions 0, 20, 40, …) and at no other position; since the statement
holds for every fetch oracle, the pause positions do not depend on
which calls fail. -/
theorem claim_C2_pause_positions {α β : Type}
    (fetch_symphony : String → FetchResult α)
    (fetch_backtest_raw : String → String → String → FetchResult β)
    (symphony_sid_list : List String) (df : List BtRow)
    (start_date end_date : String) :
    sleepIndices (batch_fetch_symphonies fetch_symphony symphony_sid_list).1
        = (List.range symphony_sid_list.length).filter (fun j => j % 20 == 0)
      ∧ sleepIndices (batch_fetch_backtests fetch_backtest_raw df start_date end_date).1
        = (List.range df.length).filter (fun j => j % 20 == 0) := by
  rw [List.range_eq_range', List.range_eq_range']
  exact ⟨sleepIndices_symAux fetch_symphony 0 symphony_sid_list,
         sleepIndices_btAux fetch_backtest_raw start_date end_date 0 df⟩

/-- Claim C3: every row processed by `batch_fetch_backtests` has its raw
response written to `bin/BT-{end_date}/{sid}.json` — with no hypothesis
on the `ok` flag, so the write happens whether or not the fetch
succeeded — and when the fetch fails the row is additionally recorded in
the failure list, so a failed fetch still leaves a local file
artifact. -/
theorem claim_C3_backtest_write_unconditional {α : Type}
    (fetch_backtest_raw : String → String → String → FetchResult α)
    (df : List BtRow) (start_date end_date : String) (i : Nat) (row : BtRow)
    (hrow : df.get? i = some row) :
    (btFilename end_date row.symphony_sid,
        (fetch_backtest_raw row.symphony_sid start_date end_date).data)
      ∈ writeEvents (batch_fetch_backtests fetch_backtest_raw df start_date end_date).1
    ∧ ((fetch_backtest_raw row.symphony_sid start_date end_date).ok = false →
        (i, row.symphony_sid,
          (fetch_backtest_raw row.symphony_sid start_date end_date).statusCode)
        ∈ (batch_fetch_backtests fetch_backtest_raw df start_date end_date).2.2) := by
  constructor
  · rw [batch_fetch_backtests, writeEvents_btAux]
    exact List.mem_map_of_mem _ (List.get?_mem hrow)
  · intro hok
    rw [batch_fetch_backtests, fail_btAux]
    have hmem : (i, row) ∈ List.enumFrom 0 df := by
      simpa using mem_enumFrom_of_get? 0 i df row hrow
    have hfil : (i, row) ∈ (List.enumFrom 0 df).filter
        (fun p => !(fetch_backtest_raw p.2.symphony_sid start_date end_date).ok) :=
      List.mem_filter.mpr ⟨hmem, by simp [hok]⟩
    exact List.mem_map_of_mem _ hfil

/-- Fetch oracle for the concrete run of the C3 theorem: every call
fails with status 500. -/
def c3Fetch : String → String → String → FetchResult Nat :=
  fun _ _ _ => ⟨false, 500, 7⟩

theorem claim_C3_witness :
    ([BtRow.mk "s"].get? 0 = some (BtRow.mk "s"))
    ∧ ((btFilename "E" (BtRow.mk "s").symphony_sid,
          (c3Fetch (BtRow.mk "s").symphony_sid "S" "E").data)
        ∈ writeEvents (batch_fetch_backtests c3Fetch [BtRow.mk "s"] "S" "E").1
      ∧ ((c3Fetch (BtRow.mk "s").symphony_sid "S" "E").ok = false →
          (0, (BtRow.mk "s").symphony_sid,
            (c3Fetch (BtRow.mk "s").symphony_sid "S" "E").statusCode)
          ∈ (batch_fetch_backtests c3Fetch [BtRow.mk "s"] "S" "E").2.2)) :=
  ⟨rfl, claim_C3_backtest_write_unconditional c3Fetch [BtRow.mk "s"] "S" "E" 0
    (BtRow.mk "s") rfl⟩

/-- Claim C7: `batch_fetch_symphonies` performs no file write at all
(its trace contains no write event), in contrast to
`batch_fetch_backtests`, whose trace contains exactly one write per
row. -/
theorem claim_C7_symphony_fetch_no_persistence {α β : Type}
    (fetch_symphony : String → FetchResult α)
    (fetch_backtest_raw : String → String → String → FetchResult β)
    (symphony_sid_list : List String) (df : List BtRow)
    (start_date end_date : String) :
    writeEvents (batch_fetch_symphonies fetch_symphony symphony_sid_list).1 = []
      ∧ writeEvents (batch_fetch_backtests fetch_backtest_raw df start_date end_date).1
        = df.map (fun row => (btFilename end_date row.symphony_sid,
            (fetch_backtest_raw row.symphony_sid start_date end_date).data)) :=
  ⟨writeEvents_symAux fetch_symphony 0 symphony_sid_list,
   writeEvents_btAux fetch_backtest_raw start_date end_date 0 df⟩

/-- Claim C5: for every pair of metric mappings, `merge_dicts d1 d2`
looks up to `d2`'s value at every key `d2` holds and to `d1`'s value
otherwise (so the second mapping wins on collision and non-overlapping
keys keep their own value), and its key set is the union of the two key
sets.  Stated for well-formed second dicts (distinct keys, as Python
dicts always have). -/
theorem claim_C5_merge_dicts_second_wins {V : Type} (d1 d2 : List (String × V))
    (hnd : (dkeys d2).Nodup) (k : String) :
    dget? (merge_dicts d1 d2) k = (dget? d2 k).orElse (fun _ => dget? d1 k)
      ∧ (k ∈ dkeys (merge_dicts d1 d2) ↔ k ∈ dkeys d1 ∨ k ∈ dkeys d2) := by
  have h := dget?_dupdate d1 d2 hnd k
  refine ⟨h, ?_⟩
  rw [← dget?_isSome_iff_mem_dkeys, ← dget?_isSome_iff_mem_dkeys,
    ← dget?_isSome_iff_mem_dkeys]
  rw [show merge_dicts d1 d2 = dupdate d1 d2 from rfl, h]
  cases dget? d2 k <;> cases dget? d1 k <;> simp [Option.orElse]

theorem claim_C5_witness :
    (dkeys [("b", 9), ("c", 3)]).Nodup
    ∧ (dget? (merge_dicts [("a", 1), ("b", 2)] [("b", 9), ("c", 3)]) "b"
          = (dget? [("b", 9), ("c", 3)] "b").orElse
              (fun _ => dget? [("a", 1), ("b", 2)] "b")
        ∧ ("b" ∈ dkeys (merge_dicts [("a", 1), ("b", 2)] [("b", 9), ("c", 3)])
            ↔ "b" ∈ dkeys [("a", 1), ("b", 2)] ∨ "b" ∈ dkeys [("b", 9), ("c", 3)])) :=
  ⟨by decide,
   claim_C5_merge_dicts_second_wins [("a", 1), ("b", 2)] [("b", 9), ("c", 3)]
     (by decide) "b"⟩

/-- Claim C6: `process_discord_exports` is a pure function of the
directory listing and of the per-file extractor, so two runs over the
same export directory (same files, same contents) produce identical
output mappings. -/
theorem claim_C6_extractor_deterministic {J : Type}
    (get_symphonies : String → List (String × J))
    (files₁ files₂ : List String) (h : files₁ = files₂) :
    process_discord_exports get_symphonies files₁
      = process_discord_exports get_symphonies files₂ := by
  rw [h]

/-- Extractor for the concrete run of the C6 theorem. -/
def c6Extract : String → List (String × Nat) :=
  fun f => if f = "e1" then [("x", 1), ("y", 2)] else [("x", 3)]

theorem claim_C6_witness :
    (["e1", "e2"] : List String) = ["e1", "e2"]
    ∧ process_discord_exports c6Extract ["e1", "e2"]
        = process_discord_exports c6Extract ["e1", "e2"] :=
  ⟨rfl, claim_C6_extractor_deterministic c6Extract ["e1", "e2"] ["e1", "e2"] rfl⟩

/-- Claim C8: the four dictionaries returned by
`process_backtest_results` always have exactly the same key set — a
successfully parsed file adds its identifier to all four, a failing file
to none. -/
theorem claim_C8_four_dicts_same_keys {J A R S : Type}
    (read_json : String → Option J)
    (get_backtest_and_symphony_name : J → Option (BtParse A R S))
    (jsonfiles : List String) :
    dkeys (process_backtest_results read_json get_backtest_and_symphony_name jsonfiles).1
        = dkeys (process_backtest_results read_json get_backtest_and_symphony_name jsonfiles).2.1
      ∧ dkeys (process_backtest_results read_json get_backtest_and_symphony_name jsonfiles).1
        = dkeys (process_backtest_results read_json get_backtest_and_symphony_name jsonfiles).2.2.1
      ∧ dkeys (process_backtest_results read_json get_backtest_and_symphony_name jsonfiles).1
        = dkeys (process_backtest_results read_json get_backtest_and_symphony_name jsonfiles).2.2.2 := by
  rw [process_eq_processFromParses]
  exact processFromParses_keys_eq_aux _ ([], [], [], []) rfl rfl rfl

/-- Claim C10: `process_backtest_results` keys its outputs by the
identifier embedded in each payload, never by the file name (the result
factors through the list of per-file parse results), and when a later
file carries the same embedded identifier as an earlier one, the later
file's values are what the four dictionaries hold at that
identifier. -/
theorem claim_C10_payload_id_last_wins {J A R S : Type}
    (read_json : String → Option J)
    (get_backtest_and_symphony_name : J → Option (BtParse A R S))
    (files : List String) (f₁ f₂ : String) (p₁ p₂ : BtParse A R S)
    (hf₁ : f₁ ∈ files)
    (hp₁ : (read_json f₁).bind get_backtest_and_symphony_name = some p₁)
    (hp₂ : (read_json f₂).bind get_backtest_and_symphony_name = some p₂)
    (hid : p₁.id = p₂.id) :
    process_backtest_results read_json get_backtest_and_symphony_name (files ++ [f₂])
        = processFromParses ((files ++ [f₂]).map
            (fun f => (read_json f).bind get_backtest_and_symphony_name))
      ∧ dget? (process_backtest_results read_json get_backtest_and_symphony_name
            (files ++ [f₂])).1 p₂.id = some p₂.df_allocations
      ∧ dget? (process_backtest_results read_json get_backtest_and_symphony_name
            (files ++ [f₂])).2.1 p₂.id = some p₂.df_return
      ∧ dget? (process_backtest_results read_json get_backtest_and_symphony_name
            (files ++ [f₂])).2.2.1 p₂.id = some p₂.stats
      ∧ dget? (process_backtest_results read_json get_backtest_and_symphony_name
            (files ++ [f₂])).2.2.2 p₂.id = some p₂.symphony_name := by
  have hrw : process_backtest_results read_json get_backtest_and_symphony_name
      (files ++ [f₂])
      = processStep (processFromParses (files.map
          (fun f => (read_json f).bind get_backtest_and_symphony_name))) (some p₂) := by
    rw [process_eq_processFromParses, List.map_append, List.map_cons, List.map_nil,
      hp₂, processFromParses_append]
  refine ⟨process_eq_processFromParses read_json get_backtest_and_symphony_name _,
    ?_, ?_, ?_, ?_⟩ <;>
    rw [hrw, processStep] <;> exact dget?_dset_self _ _ _

/-- Reader for the concrete run of the C10 theorem: files "a" and "b"
hold different payloads. -/
def c10ReadJson : String → Option Nat :=
  fun f => if f = "a" then some 1 else some 2

/-- Extractor for the concrete run of the C10 theorem: both payloads
embed the same identifier "X" with different values. -/
def c10GetBt : Nat → Option (BtParse Nat Nat Nat) :=
  fun j => if j = 1 then some ⟨1, 1, 1, "first", "X"⟩ else some ⟨2, 2, 2, "second", "X"⟩

theorem claim_C10_witness :
    ("a" ∈ (["a"] : List String))
    ∧ (c10ReadJson "a").bind c10GetBt = some ⟨1, 1, 1, "first", "X"⟩
    ∧ (c10ReadJson "b").bind c10GetBt = some ⟨2, 2, 2, "second", "X"⟩
    ∧ (process_backtest_results c10ReadJson c10GetBt (["a"] ++ ["b"])
          = processFromParses ((["a"] ++ ["b"]).map
              (fun f => (c10ReadJson f).bind c10GetBt))
        ∧ dget? (process_backtest_results c10ReadJson c10GetBt (["a"] ++ ["b"])).1
            (BtParse.id ⟨2, 2, 2, "second", "X"⟩) = some 2
        ∧ dget? (process_backtest_results c10ReadJson c10GetBt (["a"] ++ ["b"])).2.1
            (BtParse.id ⟨2, 2, 2, "second", "X"⟩) = some 2
        ∧ dget? (process_backtest_results c10ReadJson c10GetBt (["a"] ++ ["b"])).2.2.1
            (BtParse.id ⟨2, 2, 2, "second", "X"⟩) = some 2
        ∧ dget? (process_backtest_results c10ReadJson c10GetBt (["a"] ++ ["b"])).2.2.2
            (BtParse.id ⟨2, 2, 2, "second", "X"⟩) = some "second") :=
  ⟨by decide, by decide, by decide,
   claim_C10_payload_id_last_wins c10ReadJson c10GetBt ["a"] "a" "b"
     ⟨1, 1, 1, "first", "X"⟩ ⟨2, 2, 2, "second", "X"⟩ (by decide) (by decide)
     (by decide) rfl⟩

/-- Claim C4: when the input file list contains exactly one malformed
file (its read-and-extract yields `none`) and every other file parses
with pairwise-distinct embedded identifiers, `process_backtest_results`
does not abort: all four returned dictionaries are keyed by exactly the
identifiers of the well-formed files (so the malformed file's intended
identifier `badId` is absent), and every well-formed file's extracted
values are present unchanged. -/
theorem claim_C4_single_malformed_file_skipped {J A R S : Type}
    (read_json : String → Option J)
    (get_backtest_and_symphony_name : J → Option (BtParse A R S))
    (l₁ l₂ : List String) (bad badId : String) (g : String → BtParse A R S)
    (f : String) (hf : f ∈ l₁ ++ l₂)
    (hbad : (read_json bad).bind get_backtest_and_symphony_name = none)
    (hgood : ∀ x ∈ l₁ ++ l₂,
      (read_json x).bind get_backtest_and_symphony_name = some (g x))
    (hnd : ((l₁ ++ l₂).map (fun x => (g x).id)).Nodup)
    (hbadId : badId ∉ (l₁ ++ l₂).map (fun x => (g x).id)) :
    dkeys (process_backtest_results read_json get_backtest_and_symphony_name
        (l₁ ++ bad :: l₂)).1 = (l₁ ++ l₂).map (fun x => (g x).id)
    ∧ dkeys (process_backtest_results read_json get_backtest_and_symphony_name
        (l₁ ++ bad :: l₂)).2.1 = (l₁ ++ l₂).map (fun x => (g x).id)
    ∧ dkeys (process_backtest_results read_json get_backtest_and_symphony_name
        (l₁ ++ bad :: l₂)).2.2.1 = (l₁ ++ l₂).map (fun x => (g x).id)
    ∧ dkeys (process_backtest_results read_json get_backtest_and_symphony_name
        (l₁ ++ bad :: l₂)).2.2.2 = (l₁ ++ l₂).map (fun x => (g x).id)
    ∧ badId ∉ dkeys (process_backtest_results read_json get_backtest_and_symphony_name
        (l₁ ++ bad :: l₂)).1
    ∧ dget? (process_backtest_results read_json get_backtest_and_symphony_name
        (l₁ ++ bad :: l₂)).1 (g f).id = some (g f).df_allocations
    ∧ dget? (process_backtest_results read_json get_backtest_and_symphony_name
        (l₁ ++ bad :: l₂)).2.1 (g f).id = some (g f).df_return
    ∧ dget? (process_backtest_results read_json get_backtest_and_symphony_name
        (l₁ ++ bad :: l₂)).2.2.1 (g f).id = some (g f).stats
    ∧ dget? (process_backtest_results read_json get_backtest_and_symphony_name
        (l₁ ++ bad :: l₂)).2.2.2 (g f).id = some (g f).symphony_name := by
  have hres : process_backtest_results read_json get_backtest_and_symphony_name
      (l₁ ++ bad :: l₂)
      = processFromParses (((l₁ ++ l₂).map g).map some) := by
    rw [process_eq_processFromParses, List.map_append, List.map_cons, hbad,
      processFromParses_skip_none, ← List.map_append]
    congr 1
    rw [List.map_map]
    exact List.map_congr_left hgood
  have hndps : (((l₁ ++ l₂).map g).map BtParse.id).Nodup := by
    rw [List.map_map]
    exact hnd
  have hmapid : ((l₁ ++ l₂).map g).map BtParse.id
      = (l₁ ++ l₂).map (fun x => (g x).id) := by
    rw [List.map_map]
    rfl
  have hk := processFromParses_good_keys ((l₁ ++ l₂).map g) hndps
  obtain ⟨e1, e2, e3⟩ := processFromParses_keys_eq_aux
    ((((l₁ ++ l₂).map g)).map some) ([], [], [], []) rfl rfl rfl
  obtain ⟨g1, g2, g3, g4⟩ := processFromParses_good_lookups ((l₁ ++ l₂).map g) hndps
    (g f) (List.mem_map_of_mem g hf)
  rw [hres]
  refine ⟨hk.trans hmapid, ?_, ?_, ?_, ?_, g1, g2, g3, g4⟩
  · exact (e1.symm.trans hk).trans hmapid
  · exact (e2.symm.trans hk).trans hmapid
  · exact (e3.symm.trans hk).trans hmapid
  · rw [hk.trans hmapid]
    exact hbadId

/-- Reader for the concrete run of the C4 theorem: the file "bad" fails
to read, "f1" and "f2" hold payloads 1 and 2. -/
def c4ReadJson : String → Option Nat :=
  fun x => if x = "bad" then none else if x = "f1" then some 1 else some 2

/-- Extractor for the concrete run of the C4 theorem. -/
def c4GetBt : Nat → Option (BtParse Nat Nat Nat) :=
  fun j => if j = 1 then some ⟨1, 1, 1, "n1", "I1"⟩ else some ⟨2, 2, 2, "n2", "I2"⟩

/-- Expected extraction per file for the concrete run of the C4
theorem. -/
def c4G : String → BtParse Nat Nat Nat :=
  fun x => if x = "f1" then ⟨1, 1, 1, "n1", "I1"⟩ else ⟨2, 2, 2, "n2", "I2"⟩

theorem claim_C4_witness :
    ("f1" ∈ (["f1"] ++ ["f2"] : List String))
    ∧ (c4ReadJson "bad").bind c4GetBt = none
    ∧ ((["f1"] ++ ["f2"]).map (fun x => (c4G x).id)).Nodup
    ∧ "B" ∉ (["f1"] ++ ["f2"]).map (fun x => (c4G x).id)
    ∧ (dkeys (process_backtest_results c4ReadJson c4GetBt (["f1"] ++ "bad" :: ["f2"])).1
          = (["f1"] ++ ["f2"]).map (fun x => (c4G x).id)
       ∧ dkeys (process_backtest_results c4ReadJson c4GetBt (["f1"] ++ "bad" :: ["f2"])).2.1
          = (["f1"] ++ ["f2"]).map (fun x => (c4G x).id)
       ∧ dkeys (process_backtest_results c4ReadJson c4GetBt (["f1"] ++ "bad" :: ["f2"])).2.2.1
          = (["f1"] ++ ["f2"]).map (fun x => (c4G x).id)
       ∧ dkeys (process_backtest_results c4ReadJson c4GetBt (["f1"] ++ "bad" :: ["f2"])).2.2.2
          = (["f1"] ++ ["f2"]).map (fun x => (c4G x).id)
       ∧ "B" ∉ dkeys (process_backtest_results c4ReadJson c4GetBt
            (["f1"] ++ "bad" :: ["f2"])).1
       ∧ dget? (process_backtest_results c4ReadJson c4GetBt
            (["f1"] ++ "bad" :: ["f2"])).1 (c4G "f1").id = some (c4G "f1").df_allocations
       ∧ dget? (process_backtest_results c4ReadJson c4GetBt
            (["f1"] ++ "bad" :: ["f2"])).2.1 (c4G "f1").id = some (c4G "f1").df_return
       ∧ dget? (process_backtest_results c4ReadJson c4GetBt
            (["f1"] ++ "bad" :: ["f2"])).2.2.1 (c4G "f1").id = some (c4G "f1").stats
       ∧ dget? (process_backtest_results c4ReadJson c4GetBt
            (["f1"] ++ "bad" :: ["f2"])).2.2.2 (c4G "f1").id
          = some (c4G "f1").symphony_name) :=
  ⟨by decide, by decide, by decide, by decide,
   claim_C4_single_malformed_file_skipped c4ReadJson c4GetBt ["f1"] ["f2"] "bad" "B"
     c4G "f1" (by decide) (by decide) (by decide) (by decide) (by decide)⟩

/-- Claim C9: provided the CSV path for `OOS` differs from the
`SYMPHONIES` and `BACKTEST` CSV paths and from the per-identifier JSON
paths, one run of `main_data_collection_workflow` writes the OOS path
exactly twice — first the raw symphony-response dataframe, later the
OOS statistics dataframe — so after the run the OOS file holds the OOS
statistics table and the earlier content is overwritten. -/
theorem claim_C9_oos_csv_written_twice {J D : Type} (env : Env J D)
    (h1 : env.get_csv_name "OOS" ≠ env.get_csv_name "SYMPHONIES")
    (h2 : env.get_csv_name "OOS" ≠ env.get_csv_name "BACKTEST")
    (h3 : env.get_csv_name "OOS" ∉ wfJsonfiles env) :
    (main_data_collection_workflow env).1.filter
        (fun w => w.1 == env.get_csv_name "OOS")
      = [(env.get_csv_name "OOS", FileData.csv (wfDfResponse env)),
         (env.get_csv_name "OOS", FileData.csv (wfDfOosStats env))]
    ∧ lastWrite (main_data_collection_workflow env).1 (env.get_csv_name "OOS")
      = some (FileData.csv (wfDfOosStats env)) := by
  have hsymW : writeEvents (wfSymTrace env) = [] :=
    writeEvents_symAux env.fetch_symphony 0 (wfSids env)
  have hbtW : writeEvents (wfBtTrace env)
      = (wfRows env).map (fun row => (btFilename env.end_date row.symphony_sid,
          (env.fetch_backtest_raw row.symphony_sid env.start_date env.end_date).data)) :=
    writeEvents_btAux env.fetch_backtest_raw env.start_date env.end_date 0 (wfRows env)
  have hbtnil : (((wfRows env).map (fun row =>
        (btFilename env.end_date row.symphony_sid,
          (env.fetch_backtest_raw row.symphony_sid env.start_date env.end_date).data))).map
            (fun w => (w.1, (FileData.json w.2 : FileData J D)))).filter
        (fun w => w.1 == env.get_csv_name "OOS") = [] := by
    rw [List.filter_eq_nil_iff]
    intro a ha
    obtain ⟨w, hw, rfl⟩ := List.mem_map.mp ha
    obtain ⟨row, hrow, rfl⟩ := List.mem_map.mp hw
    intro hbeq
    rw [beq_iff_eq] at hbeq
    apply h3
    rw [← hbeq]
    obtain ⟨sid, hsid, rfl⟩ := List.mem_map.mp hrow
    exact List.mem_map_of_mem (fun s => btFilename env.end_date s) hsid
  have c1 : (env.get_csv_name "SYMPHONIES" == env.get_csv_name "OOS") = false :=
    beq_eq_false_iff_ne.mpr (Ne.symm h1)
  have c2 : (env.get_csv_name "BACKTEST" == env.get_csv_name "OOS") = false :=
    beq_eq_false_iff_ne.mpr (Ne.symm h2)
  have hmain : (main_data_collection_workflow env).1 = wfWrites env := rfl
  have hfirst : (main_data_collection_workflow env).1.filter
      (fun w => w.1 == env.get_csv_name "OOS")
      = [(env.get_csv_name "OOS", FileData.csv (wfDfResponse env)),
         (env.get_csv_name "OOS", FileData.csv (wfDfOosStats env))] := by
    rw [hmain, wfWrites, hsymW, hbtW]
    simp only [List.map_nil, List.nil_append, List.filter_append, List.filter_cons,
      c1, c2, beq_self_eq_true, hbtnil, List.filter_nil, if_true, if_false,
      Bool.false_eq_true, List.nil_append]
    rfl
  refine ⟨hfirst, ?_⟩
  rw [lastWrite, hfirst]
  rfl

/-- Concrete environment for one run of the C9 theorem: one export
file, one symphony id, every oracle constant, and CSV paths equal to
the dataset names. -/
def c9Env : Env Nat Nat where
  start_date := "S"
  end_date := "E"
  exportFiles := ["e1"]
  get_symphonies := fun _ => [("sid1", 0)]
  symphonies_to_df := fun _ => 10
  sidValues := fun _ => ["sid1"]
  fetch_symphony := fun _ => ⟨true, 200, 5⟩
  response_to_dataframe := fun _ => 11
  fetch_backtest_raw := fun _ _ _ => ⟨true, 200, 6⟩
  read_json := fun _ => some 6
  get_backtest_and_symphony_name := fun j => some ⟨j, j, j, "n", "sid1"⟩
  calculate_quantstats_metrics := fun d => d
  oosDates := fun _ => [("sid1", "2020-01-01")]
  calculate_oos_stats := fun d _ => d
  convert_sid_dict_to_df := fun _ _ => 12
  get_csv_name := fun s => s

theorem claim_C9_witness :
    (c9Env.get_csv_name "OOS" ≠ c9Env.get_csv_name "SYMPHONIES")
    ∧ (c9Env.get_csv_name "OOS" ≠ c9Env.get_csv_name "BACKTEST")
    ∧ (c9Env.get_csv_name "OOS" ∉ wfJsonfiles c9Env)
    ∧ ((main_data_collection_workflow c9Env).1.filter
          (fun w => w.1 == c9Env.get_csv_name "OOS")
        = [(c9Env.get_csv_name "OOS", FileData.csv (wfDfResponse c9Env)),
           (c9Env.get_csv_name "OOS", FileData.csv (wfDfOosStats c9Env))]
       ∧ lastWrite (main_data_collection_workflow c9Env).1 (c9Env.get_csv_name "OOS")
        = some (FileData.csv (wfDfOosStats c9Env))) :=
  ⟨by decide, by decide, by decide,
   claim_C9_oos_csv_written_twice c9Env (by decide) (by decide) (by decide)⟩

end Composer
